import Mathlib

/-!
Shallow embedding of the dispatch-remote-workflow-sync action's
run-identification and completion-polling logic
(`src/utils/workflow.ts`, `src/utils/api.ts`, `src/main.ts`).

Asynchronous loops that read the wall clock and call the remote API are
embedded as structurally recursive functions over a finite *environment
trace*: each loop round carries the clock reading taken at the start of
the loop body (`Date.now() - startTime`) together with the outcome of the
remote calls made in that round.  Thrown JavaScript errors are embedded as
`Except String` values carrying the error message.  A loop applied to a
trace too short to determine the execution returns `Option.none`.
-/

namespace DispatchSync

/-- Timeout constant `WORKFLOW_FETCH_TIMEOUT_MS = 60 * 1000` from
`src/utils/workflow.ts`. -/
def WORKFLOW_FETCH_TIMEOUT_MS : Nat := 60 * 1000

/-- Pause constant `WORKFLOW_JOB_STEPS_RETRY_MS = 5000` from
`src/utils/workflow.ts`. -/
def WORKFLOW_JOB_STEPS_RETRY_MS : Nat := 5000

/-- The slice of `ActionConfig` (`src/utils/config.ts`) the workflow
orchestration reads: overall timeout in seconds, poll interval in ms, and
the git ref used for branch filtering. -/
structure ActionConfig where
  workflowTimeoutSeconds : Nat
  pollIntervalMs : Nat
  ref : String
deriving Repr, DecidableEq

/-- The action's single output name `run_id` (`ActionOutputs.runId`,
surfaced by `action.yml`). -/
def ActionOutputs.runId : String := "run_id"

/-! ### retryOnError (`src/utils/api.ts`) -/

/-- One round of the `retryOnError` loop: the clock reading
`Date.now() - startTime` taken at the start of the loop body, the outcome
of `func()`, and the clock reading `Date.now() - startTime` taken inside
the `catch` block (used only when `result` is an error). -/
structure RetryRound (T : Type) where
  elapsed : Nat
  result : Except String T
  failTime : Nat

/-- Observable outcome of `retryOnError`: the returned value or thrown
error, the warning lines logged via `core.warning`, and the lengths of the
pauses taken before each retry. -/
structure RetryOutcome (T : Type) where
  outcome : Except String T
  warnings : List String
  pauses : List Nat

/-- The warning text logged by `retryOnError` on a tolerated failure. -/
def retryWarnText (name msg : String) : String :=
  "retryOnError: An unexpected error has occurred:\n" ++
    "  name: " ++ name ++ "\n" ++
    "  error: " ++ msg

/-- Embedding of `retryOnError(func, name, timeout)` from `src/utils/api.ts`, over a
trace of rounds.  `elapsed` is the clock reading feeding the next `while`
condition (initially `Date.now() - startTime` computed right after
`startTime`).  On success the value is returned; on a failure at or past
the deadline the original error is rethrown; on an earlier failure a
warning is logged and a 1000 ms pause precedes the retry; if the `while`
condition fails, a generic timeout error naming the operation is thrown. -/
def retryOnError {T : Type} (name : String) (timeout : Nat) :
    List (RetryRound T) → Nat → Option (RetryOutcome T)
  | [], elapsed =>
    if elapsed < timeout then none
    else
      some ⟨.error ("Timeout exceeded while attempting to retry " ++ name),
        [], []⟩
  | r :: rest, elapsed =>
    if elapsed < timeout then
      match r.result with
      | .ok v => some ⟨.ok v, [], []⟩
      | .error e =>
        if timeout ≤ r.failTime then
          some ⟨.error e, [], []⟩
        else
          match retryOnError name timeout rest r.elapsed with
          | none => none
          | some res =>
            some ⟨res.outcome, retryWarnText name e :: res.warnings,
              1000 :: res.pauses⟩
    else
      some ⟨.error ("Timeout exceeded while attempting to retry " ++ name),
        [], []⟩

/-! ### getWorkflowRunActiveJobUrlRetry (`src/utils/api.ts`) -/

/-- One round of the `getWorkflowRunActiveJobUrlRetry` loop: the clock
reading at the start of the body and the outcome of
`getWorkflowRunActiveJobUrl(runId)` — a thrown error, `undefined`
(`.ok none`), or a URL string. -/
structure UrlRound where
  elapsed : Nat
  url : Except String (Option String)

/-- Embedding of `getWorkflowRunActiveJobUrlRetry(runId, timeout)` from
`src/utils/api.ts`.  Returns the first truthy URL; on deadline expiry
returns the sentinel string (not an error); an error thrown by
`getWorkflowRunActiveJobUrl` propagates (there is no try/catch). -/
def getWorkflowRunActiveJobUrlRetry (timeout : Nat) :
    List UrlRound → Nat → Option (Except String String)
  | [], elapsed =>
    if elapsed < timeout then none
    else some (.ok ("Unable to fetch URL"))
  | r :: rest, elapsed =>
    if elapsed < timeout then
      match r.url with
      | .error e => some (.error e)
      | .ok u =>
        match u with
        | some s =>
          if s = "" then getWorkflowRunActiveJobUrlRetry timeout rest r.elapsed
          else some (.ok s)
        | none => getWorkflowRunActiveJobUrlRetry timeout rest r.elapsed
    else
      some (.ok ("Unable to fetch URL"))

/-! ### getWorkflowRunIds request shape (`src/utils/api.ts`) -/

/-- The branch-related parameters `getWorkflowRunIds` sends to
`octokit.rest.actions.listWorkflowRuns`. -/
structure ListRunsRequest where
  branch : Option String
  per_page : Nat
deriving Repr, DecidableEq

/-- Helper: whether `pat` occurs at the start of `text`. -/
def listStartsWith : List Char → List Char → Bool
  | [], _ => true
  | _ :: _, [] => false
  | a :: pat, b :: text => a = b && listStartsWith pat text

/-- Helper: whether `pat` occurs contiguously anywhere in `text`. -/
def hasSubList (pat : List Char) : List Char → Bool
  | [] => listStartsWith pat []
  | b :: text => listStartsWith pat (b :: text) || hasSubList pat text

/-- Modelled from the spec: `getBranchName` (in `src/utils/branch.ts`,
absent from the sources; only its callers and tests are present) is the
external "branch-name normalization from a git reference string": a
branch-like ref `refs/heads/<name>` normalizes to `<name>`; a ref that is
not branch-like produces no branch name. -/
def getBranchName (ref : String) : Option String :=
  if listStartsWith ("refs/heads/".toList) ref.toList
  then some (String.mk (ref.toList.drop 11)) else none

/-- The request parameters computed by `getWorkflowRunIds`
(`src/utils/api.ts`): `branchName = getBranchName(config.ref) || config.ref`
(JavaScript `||`, falling back on `undefined` or the empty string), then
`branch`+`per_page: 5` when `branchName` is truthy, else `per_page: 10`. -/
def runListRequest (ref : String) : ListRunsRequest :=
  let branchName :=
    match getBranchName ref with
    | some s => if s = "" then ref else s
    | none => ref
  if branchName = "" then ⟨none, 10⟩ else ⟨some branchName, 5⟩

/-! ### Run Correlator: getWorkflowRunId (`src/utils/workflow.ts`) -/

/-- The test performed by the compiled marker regex
`new RegExp(DISTINCT_ID)` via `idRegex.test(step)`: the marker is a
UUID-class token (hexadecimal digits and dashes, no regex
metacharacters), so the unanchored regex test is substring containment. -/
def regexTest (marker step : String) : Bool :=
  hasSubList marker.toList step.toList

/-- One round of the outer `getWorkflowRunId` loop: the clock reading at
the start of the body, the outcome of the
`retryOrDie(() => getWorkflowRunIds(workflowId), …)` fetch (run IDs, or a
thrown error — either the primitive's timeout error or an error from
`getWorkflowRunIds` itself), the outcome of `getWorkflowRunJobSteps(id)`
per candidate run, and the outcome of `getWorkflowRunUrl(id)`. -/
structure CorrRound where
  elapsed : Nat
  fetch : Except String (List Nat)
  probe : Nat → Except String (List String)
  url : Nat → Except String String

/-- Observable result of `getWorkflowRunId`: the returned value
(`.ok (some id)` for a found run, `.ok none` for the fall-through
`undefined` return) or thrown error; the `run_id` output if set; whether
the `time` output was set; and the timeout argument passed to
`retryOrDie` in each round. -/
structure CorrResult where
  outcome : Except String (Option Nat)
  runIdOutput : Option Nat
  timeOutput : Bool
  fetchTimeouts : List Nat

/-- The timeout argument `getWorkflowRunId` passes to `retryOrDie`:
`WORKFLOW_FETCH_TIMEOUT_MS > timeoutMs ? timeoutMs :
WORKFLOW_FETCH_TIMEOUT_MS`. -/
def workflowFetchTimeout (timeoutMs : Nat) : Nat :=
  if WORKFLOW_FETCH_TIMEOUT_MS > timeoutMs then timeoutMs
  else WORKFLOW_FETCH_TIMEOUT_MS

/-- The inner `for (const id of workflowRunIds)` loop of
`getWorkflowRunId`, with its try/catch: probe each candidate's step
names; on the first run with a step matching the marker, fetch its URL
and return the run ID; an error (from the probe or the URL fetch) with
message `Not Found` is swallowed and the loop continues; any other error
propagates.  `test` is the compiled `idRegex.test`. -/
def probeRuns (test : String → Bool) (r : CorrRound) :
    List Nat → Except String (Option Nat)
  | [] => .ok none
  | id :: rest =>
    match r.probe id with
    | .error e =>
      if e = "Not Found" then probeRuns test r rest else .error e
    | .ok steps =>
      if steps.any test then
        match r.url id with
        | .error e =>
          if e = "Not Found" then probeRuns test r rest else .error e
        | .ok _ => .ok (some id)
      else probeRuns test r rest

/-- The outer `while (elapsedTime < timeoutMs)` loop of
`getWorkflowRunId`.  `elapsed` is the clock reading feeding the `while`
condition (the value measured at the start of the previous round's body,
initially just after `startTime`).  When the condition fails the function
sets the `time` output and returns `undefined`. -/
def corrLoop (test : String → Bool) (timeoutMs : Nat) :
    List CorrRound → Nat → Option CorrResult
  | [], elapsed =>
    if elapsed < timeoutMs then none
    else some ⟨.ok none, none, true, []⟩
  | r :: rest, elapsed =>
    if elapsed < timeoutMs then
      match r.fetch with
      | .error e => some ⟨.error e, none, false, [workflowFetchTimeout timeoutMs]⟩
      | .ok ids =>
        match probeRuns test r ids with
        | .error e => some ⟨.error e, none, false, [workflowFetchTimeout timeoutMs]⟩
        | .ok (some id) =>
          some ⟨.ok (some id), some id, false, [workflowFetchTimeout timeoutMs]⟩
        | .ok none =>
          match corrLoop test timeoutMs rest r.elapsed with
          | none => none
          | some res =>
            some { res with
              fetchTimeouts := workflowFetchTimeout timeoutMs :: res.fetchTimeouts }
    else
      some ⟨.ok none, none, true, []⟩

/-- Embedding of `getWorkflowRunId(config, workflowId, DISTINCT_ID)` from
`src/utils/workflow.ts`: the outer polling loop with deadline
`config.workflowTimeoutSeconds * 1000`, over an environment trace.
`test` is the compiled marker regex's test and `e0` the initial
`Date.now() - startTime` reading. -/
def getWorkflowRunId (test : String → Bool) (config : ActionConfig)
    (rounds : List CorrRound) (e0 : Nat) : Option CorrResult :=
  corrLoop test (config.workflowTimeoutSeconds * 1000) rounds e0

/-! ### Completion Waiter: waitWorkflowRunFinish (`src/utils/workflow.ts`) -/

/-- Run state as returned by `getWorkflowRunState`: nullable status and
conclusion strings (the TypeScript enums are string-valued and the API
fields are nullable). -/
structure WorkflowRunState where
  status : Option String
  conclusion : Option String
deriving Repr, DecidableEq

/-- The conclusions handled by the failure arm of the `switch` in
`waitWorkflowRunFinish` (`WorkflowRunConclusion` members other than
`success`). -/
def failureConclusions : List String :=
  ["action_required", "cancelled", "failure", "neutral", "skipped",
    "timed_out"]

/-- One round of the `waitWorkflowRunFinish` polling loop: the clock
reading at the start of the body and the outcome of
`retryOnError(() => getWorkflowRunState(runId), 'getWorkflowRunState', 400)`. -/
structure WaitRound where
  elapsed : Nat
  state : Except String WorkflowRunState

/-- Observable result of `waitWorkflowRunFinish`: the returned boolean or
thrown error, the `core.setFailed` message if any, and whether
`getWorkflowRunFailedJobs` was invoked (via `logFailureDetails`). -/
structure WaitResult where
  outcome : Except String Bool
  failedMsg : Option String
  fetchedFailedJobs : Bool
deriving Repr

/-- The `while (elapsedTime < timeoutMs)` loop of
`waitWorkflowRunFinish`.  `failedJobsFetch` is the outcome of
`getWorkflowRunFailedJobs(runId)` (its job list abstracted to a unit —
only its success or thrown error is observable here); an error thrown by
it propagates before `core.setFailed` runs.  When the `while` condition
fails the function throws a timeout error naming the run ID. -/
def waitLoop (timeoutMs runId : Nat)
    (failedJobsFetch : Except String Unit) :
    List WaitRound → Nat → Option WaitResult
  | [], elapsed =>
    if elapsed < timeoutMs then none
    else
      some ⟨.error ("Timeout exceeded while awaiting completion of Run " ++
        toString runId), none, false⟩
  | r :: rest, elapsed =>
    if elapsed < timeoutMs then
      match r.state with
        | .error e => some ⟨.error e, none, false⟩
        | .ok st =>
          if st.status = some ("completed") then
            match st.conclusion with
            | some c =>
              if c = "success" then some ⟨.ok true, none, false⟩
              else if c ∈ failureConclusions then
                match failedJobsFetch with
                | .error e => some ⟨.error e, none, true⟩
                | .ok _ => some ⟨.ok false, some c, true⟩
              else some ⟨.ok false, some ("Unknown conclusion: " ++ c), false⟩
            | none =>
              some ⟨.ok false, some ("Unknown conclusion: null"), false⟩
          else
            waitLoop timeoutMs runId failedJobsFetch rest r.elapsed
    else
      some ⟨.error ("Timeout exceeded while awaiting completion of Run " ++
        toString runId), none, false⟩

/-- Embedding of `waitWorkflowRunFinish(config, runId)` from `src/utils/workflow.ts`:
first the pre-polling `getWorkflowRunActiveJobUrlRetry(runId, 1000)` call
(whose thrown errors propagate — there is no try/catch around the
`core.info` template), then the polling loop with deadline
`config.workflowTimeoutSeconds * 1000`. -/
def waitWorkflowRunFinish (config : ActionConfig) (runId : Nat)
    (urlRounds : List UrlRound) (u0 : Nat)
    (pollRounds : List WaitRound) (e0 : Nat)
    (failedJobsFetch : Except String Unit) : Option WaitResult :=
  match getWorkflowRunActiveJobUrlRetry 1000 urlRounds u0 with
  | none => none
  | some (.error e) => some ⟨.error e, none, false⟩
  | some (.ok _) =>
    waitLoop (config.workflowTimeoutSeconds * 1000) runId failedJobsFetch
      pollRounds e0

/-! ### Main entry point (`src/main.ts`) -/

/-- What `run()` does with the value returned by `getWorkflowRunId`:
`if (workflowRunId) { await waitWorkflowRunFinish(...) } else
{ core.setFailed('Did not receive workflowRunId') }` — a JavaScript
truthiness test, under which the number `0` is falsy. -/
inductive MainDecision
  | invokeWaiter (runId : Nat)
  | setFailed (msg : String)
deriving Repr, DecidableEq

/-- The post-correlation branch of `run()` in `src/main.ts`. -/
def runDecision (workflowRunId : Option Nat) : MainDecision :=
  match workflowRunId with
  | some id =>
    if id ≠ 0 then .invokeWaiter id
    else .setFailed ("Did not receive workflowRunId")
  | none => .setFailed ("Did not receive workflowRunId")

/-! ### Auxiliary predicates and concrete environments -/

/-- Correlation-round predicate: candidate `j` is passed over by the
inner probe loop — its step probe either throws the tolerated
`Not Found` error or succeeds with no step matching the marker. -/
def skipsRun (test : String → Bool) (r : CorrRound) (j : Nat) : Bool :=
  match r.probe j with
  | .error e => decide (e = "Not Found")
  | .ok steps => !(steps.any test)

/-- Waiter-round predicate: the poll returned a state whose status is
not `completed`. -/
def pollsNotCompleted (r : WaitRound) : Bool :=
  match r.state with
  | .error _ => false
  | .ok st => !(decide (st.status = some ("completed")))

/-- Correlation-round predicate: the run-list fetch succeeded and the
inner probe loop went through every candidate without finding a match and
without a fatal error. -/
def roundNoMatch (test : String → Bool) (r : CorrRound) : Bool :=
  match r.fetch with
  | .error _ => false
  | .ok ids =>
    match probeRuns test r ids with
    | .ok none => true
    | .ok (some _) => false
    | .error _ => false

/-- The per-round fetch bound as claim C6 words it: the minimum of 60
seconds and the remaining overall budget, i.e. the configured overall
timeout minus the time already elapsed in the outer correlation loop at
that round.  Stated from the claim, for comparison with
`workflowFetchTimeout`, the bound the code actually passes. -/
def claimedFetchBound (timeoutMs elapsedMs : Nat) : Nat :=
  min WORKFLOW_FETCH_TIMEOUT_MS (timeoutMs - elapsedMs)

/-- Concrete marker test (the compiled regex for the marker `abc-123`). -/
def tMark : String → Bool := regexTest ("abc-123")

/-- Concrete configuration: 300 s timeout, 5000 ms poll interval. -/
def cfg300 : ActionConfig := ⟨300, 5000, "refs/heads/main"⟩

/-- Concrete configuration: 70 s timeout, 5000 ms poll interval. -/
def cfg70 : ActionConfig := ⟨70, 5000, "refs/heads/main"⟩

/-- Concrete probe: run 5 has unrelated steps, run 9 is not queryable,
run 11 carries the marker in a step name. -/
def probeA : Nat → Except String (List String)
  | 5 => .ok ["checkout", "build"]
  | 9 => .error ("Not Found")
  | 11 => .ok ["checkout", "run abc-123 step"]
  | _ => .error ("Not Found")

/-- Concrete correlation round listing runs 5, 9 and 11. -/
def roundA : CorrRound := ⟨0, .ok [5, 9, 11], probeA, fun _ => .ok ("https://host/runs/11")⟩

/-- Concrete probe finding only unrelated steps. -/
def probeB : Nat → Except String (List String) := fun _ => .ok ["setup"]

/-- Concrete correlation round measured at 50 s elapsed; no marker. -/
def roundB1 : CorrRound := ⟨50000, .ok [7], probeB, fun _ => .ok ("u")⟩

/-- Concrete correlation round measured at 70 s elapsed; no marker. -/
def roundB2 : CorrRound := ⟨70000, .ok [7], probeB, fun _ => .ok ("u")⟩

/-- Concrete correlation round that finds the marker on run 0. -/
def roundZero : CorrRound :=
  ⟨0, .ok [0], fun _ => .ok ["run abc-123 step"], fun _ => .ok ("https://host/runs/0")⟩

/-- Concrete URL-prefetch round whose gateway call throws. -/
def urlRoundErr : UrlRound := ⟨0, .error ("boom")⟩

/-- Concrete URL-prefetch round that finds a URL. -/
def urlRoundOk : UrlRound := ⟨0, .ok (some ("https://host/jobs/1"))⟩

/-- Concrete poll round: the run is still in progress at 1 s elapsed. -/
def pollInProgress : WaitRound := ⟨1000, .ok ⟨some ("in_progress"), none⟩⟩

/-- Concrete poll round: the run completed with conclusion `failure`. -/
def pollFailed : WaitRound := ⟨2000, .ok ⟨some ("completed"), some ("failure")⟩⟩

/-- Concrete poll round: still in progress, measured past the 300 s
deadline. -/
def pollLate : WaitRound := ⟨300000, .ok ⟨some ("in_progress"), none⟩⟩

/-- Concrete poll round: the run completed successfully. -/
def pollSuccess : WaitRound := ⟨0, .ok ⟨some ("completed"), some ("success")⟩⟩

/-- Concrete probe whose first candidate throws a fatal (non-`Not Found`)
error. -/
def probeC : Nat → Except String (List String)
  | 1 => .error ("boom")
  | _ => .ok ["s"]

/-- Concrete correlation round whose first candidate probe throws a
fatal error. -/
def roundC : CorrRound := ⟨0, .ok [1, 2], probeC, fun _ => .ok ("u")⟩

/-- The clock reading feeding the loop condition after a list of rounds
has been consumed (each round's body-start reading feeds the next
condition). -/
def lastElapsed (e0 : Nat) : List WaitRound → Nat
  | [] => e0
  | r :: rest => lastElapsed r.elapsed rest

/-! ## Helper lemmas -/

/-- Once the loop condition fails, `corrLoop` sets the `time` output and
returns the fall-through value, whatever trace remains. -/
theorem corrLoop_deadline (test : String → Bool) (T : Nat)
    (rounds : List CorrRound) (elapsed : Nat) (h : ¬ elapsed < T) :
    corrLoop test T rounds elapsed = some ⟨.ok none, none, true, []⟩ := by
  cases rounds <;> simp [corrLoop, h]

/-- Once the loop condition fails, `waitLoop` throws the timeout error
naming the run ID, whatever trace remains. -/
theorem waitLoop_deadline (T runId : Nat) (fj : Except String Unit)
    (rounds : List WaitRound) (elapsed : Nat) (h : ¬ elapsed < T) :
    waitLoop T runId fj rounds elapsed =
      some ⟨.error ("Timeout exceeded while awaiting completion of Run " ++
        toString runId), none, false⟩ := by
  cases rounds <;> simp [waitLoop, h]

/-- Candidates that are passed over (tolerated `Not Found`, or no
matching step) do not affect the rest of the inner probe loop. -/
theorem probeRuns_append_skips (test : String → Bool) (r : CorrRound)
    (pre l : List Nat) (hpre : ∀ j ∈ pre, skipsRun test r j = true) :
    probeRuns test r (pre ++ l) = probeRuns test r l := by
  induction pre with
  | nil => rfl
  | cons j js ih =>
    have hj := hpre j (List.mem_cons_self j js)
    have hrest : ∀ k ∈ js, skipsRun test r k = true :=
      fun k hk => hpre k (List.mem_cons_of_mem j hk)
    have hih := ih hrest
    unfold skipsRun at hj
    simp only [List.cons_append, probeRuns]
    cases hp : r.probe j with
    | error e =>
      rw [hp] at hj
      simp only [decide_eq_true_eq] at hj
      simp [hj, hih]
    | ok steps =>
      rw [hp] at hj
      simp only [Bool.not_eq_true'] at hj
      simp [hj, hih]

/-- Destructor for `roundNoMatch`. -/
theorem roundNoMatch_elim (test : String → Bool) (r : CorrRound)
    (h : roundNoMatch test r = true) :
    ∃ ids, r.fetch = .ok ids ∧ probeRuns test r ids = .ok none := by
  unfold roundNoMatch at h
  split at h
  · simp at h
  · next ids hf =>
    split at h
    · next hp => exact ⟨ids, hf, hp⟩
    · simp at h
    · simp at h

/-- Destructor for `pollsNotCompleted`. -/
theorem pollsNotCompleted_elim (r : WaitRound)
    (h : pollsNotCompleted r = true) :
    ∃ st, r.state = .ok st ∧ ¬ st.status = some ("completed") := by
  unfold pollsNotCompleted at h
  cases hs : r.state with
  | error e => rw [hs] at h; simp at h
  | ok st =>
    rw [hs] at h
    simp only [Bool.not_eq_true', decide_eq_false_iff_not] at h
    exact ⟨st, rfl, h⟩

/-- Whenever `corrLoop` returns a found run ID, it has set the `run_id`
output to that ID. -/
theorem corrLoop_found_sets_output (test : String → Bool) (T : Nat) :
    ∀ (rounds : List CorrRound) (e0 : Nat) (res : CorrResult) (id : Nat),
      corrLoop test T rounds e0 = some res →
      res.outcome = .ok (some id) → res.runIdOutput = some id := by
  intro rounds
  induction rounds with
  | nil =>
    intro e0 res id h hout
    unfold corrLoop at h
    split at h
    · exact absurd h (by simp)
    · cases h
      simp at hout
  | cons r rest ih =>
    intro e0 res id h hout
    unfold corrLoop at h
    split at h
    · split at h
      · cases h
        simp at hout
      · split at h
        · cases h
          simp at hout
        · cases h
          simp only at hout
          cases hout
          rfl
        · split at h
          · cases h
          · next res2 hc =>
            cases h
            exact ih r.elapsed res2 id hc hout
    · cases h
      simp at hout

/-- Every fetch-timeout recorded by `corrLoop` equals
`workflowFetchTimeout timeoutMs`. -/
theorem corrLoop_fetchTimeouts_const (test : String → Bool) (T : Nat) :
    ∀ (rounds : List CorrRound) (e0 : Nat) (res : CorrResult),
      corrLoop test T rounds e0 = some res →
      ∀ t ∈ res.fetchTimeouts, t = workflowFetchTimeout T := by
  intro rounds
  induction rounds with
  | nil =>
    intro e0 res h
    unfold corrLoop at h
    split at h
    · exact absurd h (by simp)
    · cases h
      simp
  | cons r rest ih =>
    intro e0 res h
    unfold corrLoop at h
    split at h
    · split at h
      · cases h
        simp
      · split at h
        · cases h
          simp
        · cases h
          simp
        · split at h
          · cases h
          · next res2 hc =>
            cases h
            intro t ht
            simp only [List.mem_cons] at ht
            cases ht with
            | inl h1 => exact h1
            | inr h2 => exact ih r.elapsed res2 hc t h2
    · cases h
      simp

/-- `waitLoop` passes over rounds whose polled status is not
`completed`, carrying the last round's clock reading into the next
condition. -/
theorem waitLoop_skips_pending (T runId : Nat) (fj : Except String Unit) :
    ∀ (pre rest : List WaitRound) (e0 : Nat), e0 < T →
      (∀ r ∈ pre, pollsNotCompleted r = true ∧ r.elapsed < T) →
      waitLoop T runId fj (pre ++ rest) e0 =
        waitLoop T runId fj rest (lastElapsed e0 pre) := by
  intro pre
  induction pre with
  | nil => intro rest e0 _ _; rfl
  | cons p ps ih =>
    intro rest e0 h0 hpre
    have hp := hpre p (List.mem_cons_self p ps)
    obtain ⟨st, hst, hne⟩ := pollsNotCompleted_elim p hp.1
    have hrest : ∀ r ∈ ps, pollsNotCompleted r = true ∧ r.elapsed < T :=
      fun r hr => hpre r (List.mem_cons_of_mem p hr)
    simp only [List.cons_append, waitLoop, lastElapsed]
    rw [if_pos h0, hst]
    simp only [hne, if_false, if_neg hne]
    exact ih rest p.elapsed hp.2 hrest

/-- The clock reading carried out of a list of pending rounds stays
below the deadline when every reading in it does. -/
theorem lastElapsed_lt (T : Nat) :
    ∀ (pre : List WaitRound) (e0 : Nat), e0 < T →
      (∀ r ∈ pre, r.elapsed < T) → lastElapsed e0 pre < T := by
  intro pre
  induction pre with
  | nil => intro e0 h0 _; exact h0
  | cons p ps ih =>
    intro e0 _ hpre
    exact ih p.elapsed (hpre p (List.mem_cons_self p ps))
      (fun r hr => hpre r (List.mem_cons_of_mem p hr))

/-! ## Claim theorems -/

/-- C5: during a correlation round, a candidate probe error with message
exactly `Not Found` is swallowed and the inner loop continues with the
next candidate; a probe error with any other message makes the whole
correlation abort immediately by propagating that error. -/
theorem correlator_probe_error_handling (test : String → Bool)
    (r : CorrRound) (x : Nat) (rest : List Nat) (m : String)
    (T e0 : Nat) (tail : List CorrRound) :
    (r.probe x = .error ("Not Found") →
      probeRuns test r (x :: rest) = probeRuns test r rest) ∧
    (r.probe x = .error m → m ≠ "Not Found" →
      probeRuns test r (x :: rest) = .error m ∧
      (e0 < T → r.fetch = .ok (x :: rest) →
        corrLoop test T (r :: tail) e0 =
          some ⟨.error m, none, false, [workflowFetchTimeout T]⟩)) := by
  constructor
  · intro hp
    simp [probeRuns, hp]
  · intro hp hm
    have h1 : probeRuns test r (x :: rest) = .error m := by
      simp [probeRuns, hp, hm]
    refine ⟨h1, fun hT hf => ?_⟩
    simp [corrLoop, hT, hf, h1]

/-- Witness for C5 at a concrete round: the fatal probe error `boom`
aborts the correlation. -/
theorem correlator_probe_error_handling_witness :
    probeRuns tMark roundC [1, 2] = .error ("boom") ∧
    corrLoop tMark 300000 [roundC] 0 =
      some ⟨.error ("boom"), none, false, [workflowFetchTimeout 300000]⟩ := by
  have h := (correlator_probe_error_handling tMark roundC 1 [2] "boom"
    300000 0 []).2 rfl (by decide)
  exact ⟨h.1, h.2 (by decide) rfl⟩

/-- C8: for each failure of the operation wrapped by `retryOnError`, if
the clock reading at that failure meets or exceeds the deadline, the
original error from that failure is rethrown (not the generic timeout
error); otherwise a warning naming the operation and the error message is
logged and a 1000 ms pause precedes the retry. -/
theorem retryOnError_failure_behavior {T : Type} (name : String)
    (timeout elapsed : Nat) (r : RetryRound T) (rest : List (RetryRound T))
    (e : String) (hcond : elapsed < timeout) (herr : r.result = .error e) :
    (timeout ≤ r.failTime →
      retryOnError name timeout (r :: rest) elapsed =
        some ⟨.error e, [], []⟩) ∧
    (r.failTime < timeout → ∀ res,
      retryOnError name timeout rest r.elapsed = some res →
      retryOnError name timeout (r :: rest) elapsed =
        some ⟨res.outcome, retryWarnText name e :: res.warnings,
          1000 :: res.pauses⟩) := by
  constructor
  · intro hf
    simp [retryOnError, hcond, herr, hf]
  · intro hf res hres
    simp [retryOnError, hcond, herr, Nat.not_le.mpr hf, hres]

/-- Witness for C8 at a concrete failure past the deadline: the original
error `kaput` is rethrown. -/
theorem retryOnError_failure_behavior_witness :
    retryOnError ("getWorkflowRunState") 400
      ([⟨0, .error ("kaput"), 450⟩] : List (RetryRound Unit)) 0 =
      some ⟨.error ("kaput"), [], []⟩ :=
  (retryOnError_failure_behavior ("getWorkflowRunState") 400 0
    ⟨0, .error ("kaput"), 450⟩ [] "kaput" (by decide) rfl).1 (by decide)

/-- C9 counterexample: for the non-branch-like ref `refs/tags/test`
(spec-modelled `getBranchName` yields no branch name), the
`getWorkflowRunIds` request still carries a branch filter — the raw ref —
with page size 5, not the filterless default-page-size request the claim
describes. -/
theorem runListRequest_tag_ref_counterexample :
    runListRequest ("refs/tags/test") = ⟨some ("refs/tags/test"), 5⟩ ∧
    getBranchName ("refs/tags/test") = none ∧
    runListRequest ("refs/tags/test") ≠ ⟨none, 10⟩ := by
  refine ⟨by decide, by decide, by decide⟩

/-- C9 (amended): when the configured ref is branch-like, the request
filters by the normalized branch name with page size 5; when it is not
branch-like, the raw ref falls back in as the branch filter (page size 5)
whenever the ref is non-empty; only an empty ref yields no branch filter
and the page size 10. -/
theorem runListRequest_branch_filtering (ref name : String) :
    (getBranchName ref = some name → name ≠ "" →
      runListRequest ref = ⟨some name, 5⟩) ∧
    (getBranchName ref = none → ref ≠ "" →
      runListRequest ref = ⟨some ref, 5⟩) ∧
    (getBranchName ref = none → ref = "" →
      runListRequest ref = ⟨none, 10⟩) := by
  refine ⟨fun h hne => ?_, fun h hne => ?_, fun h he => ?_⟩
  · simp only [runListRequest, h]
    simp [hne]
  · simp only [runListRequest, h]
    simp [hne]
  · simp only [runListRequest, h]
    simp [he]

/-- Witness for C9 (amended) at the branch-like ref `refs/heads/main`. -/
theorem runListRequest_branch_filtering_witness :
    runListRequest ("refs/heads/main") = ⟨some ("main"), 5⟩ :=
  (runListRequest_branch_filtering ("refs/heads/main") "main").1 (by decide)
    (by decide)

/-- C10: if the correlator returns the numeric run ID 0 it has already
emitted 0 as the `run_id` output, yet the main entry point's truthiness
check treats the correlation as unresolved: it marks the invocation
failed with `Did not receive workflowRunId` and never invokes the
completion waiter. -/
theorem main_zero_run_id_unresolved (test : String → Bool)
    (config : ActionConfig) (rounds : List CorrRound) (e0 : Nat)
    (res : CorrResult)
    (h : getWorkflowRunId test config rounds e0 = some res)
    (hout : res.outcome = .ok (some 0)) :
    res.runIdOutput = some 0 ∧
    runDecision (some 0) = .setFailed ("Did not receive workflowRunId") := by
  refine ⟨?_, rfl⟩
  exact corrLoop_found_sets_output test
    (config.workflowTimeoutSeconds * 1000) rounds e0 res 0 h hout

/-- Witness for C10 at a concrete correlation that identifies run 0. -/
theorem main_zero_run_id_unresolved_witness :
    ∃ res, getWorkflowRunId tMark cfg300 [roundZero] 0 = some res ∧
      res.runIdOutput = some 0 ∧
      runDecision (some 0) =
        .setFailed ("Did not receive workflowRunId") := by
  refine ⟨⟨.ok (some 0), some 0, false, [workflowFetchTimeout 300000]⟩,
    rfl, ?_⟩
  exact main_zero_run_id_unresolved tMark cfg300 [roundZero] 0 _ rfl rfl

/-- C1: in a correlation round that starts before the overall deadline,
when the candidate run listing succeeds and exactly one listed run's
fetched job-step names contain a match for the marker (candidates listed
before it are passed over: tolerated `Not Found` or no matching step),
the correlator returns that run's numeric ID and emits it as the
`run_id` output. -/
theorem correlator_returns_marked_run (test : String → Bool)
    (config : ActionConfig) (r : CorrRound) (tail : List CorrRound)
    (e0 : Nat) (pre : List Nat) (m : Nat) (post : List Nat)
    (steps : List String) (u : String)
    (h0 : e0 < config.workflowTimeoutSeconds * 1000)
    (hfetch : r.fetch = .ok (pre ++ m :: post))
    (hpre : ∀ j ∈ pre, skipsRun test r j = true)
    (hprobe : r.probe m = .ok steps)
    (hmatch : steps.any test = true)
    (hurl : r.url m = .ok u) :
    getWorkflowRunId test config (r :: tail) e0 =
      some ⟨.ok (some m), some m, false,
        [workflowFetchTimeout (config.workflowTimeoutSeconds * 1000)]⟩ := by
  have hskip := probeRuns_append_skips test r pre (m :: post) hpre
  have hm : probeRuns test r (m :: post) = .ok (some m) := by
    simp [probeRuns, hprobe, hmatch, hurl]
  unfold getWorkflowRunId corrLoop
  simp [h0, hfetch, hskip, hm]

/-- Witness for C1: among runs 5, 9 (not queryable) and 11, only run 11
carries the marker, and the correlator returns 11. -/
theorem correlator_returns_marked_run_witness :
    getWorkflowRunId tMark cfg300 [roundA] 0 =
      some ⟨.ok (some 11), some 11, false, [workflowFetchTimeout 300000]⟩ :=
  correlator_returns_marked_run tMark cfg300 roundA [] 0 [5, 9] 11 []
    ["checkout", "run abc-123 step"] ("https://host/runs/11") (by decide)
    rfl (by decide) rfl (by decide) rfl

/-- C4: when the marker matches no candidate run's step names in any
round and the overall deadline elapses, the correlator records the
`time` output and returns no run identifier (the `undefined`
fall-through) as a normal return value, raising no error. -/
theorem correlator_no_match_returns_undefined (test : String → Bool)
    (config : ActionConfig) (pre : List CorrRound) (rl : CorrRound)
    (tail : List CorrRound) (e0 : Nat)
    (h0 : e0 < config.workflowTimeoutSeconds * 1000)
    (hpre : ∀ r ∈ pre, roundNoMatch test r = true ∧
      r.elapsed < config.workflowTimeoutSeconds * 1000)
    (hrl : roundNoMatch test rl = true)
    (hlast : config.workflowTimeoutSeconds * 1000 ≤ rl.elapsed) :
    getWorkflowRunId test config (pre ++ rl :: tail) e0 =
      some ⟨.ok none, none, true,
        List.replicate (pre.length + 1)
          (workflowFetchTimeout (config.workflowTimeoutSeconds * 1000))⟩ := by
  unfold getWorkflowRunId
  induction pre generalizing e0 with
  | nil =>
    obtain ⟨ids, hf, hp⟩ := roundNoMatch_elim test rl hrl
    have hstop := corrLoop_deadline test
      (config.workflowTimeoutSeconds * 1000) tail rl.elapsed
      (Nat.not_lt.mpr hlast)
    simp only [List.nil_append, corrLoop]
    rw [if_pos h0, hf]
    simp only [hp, hstop]
    rfl
  | cons p ps ih =>
    have hpp := hpre p (List.mem_cons_self p ps)
    obtain ⟨ids, hf, hp⟩ := roundNoMatch_elim test p hpp.1
    have hps : ∀ r ∈ ps, roundNoMatch test r = true ∧
        r.elapsed < config.workflowTimeoutSeconds * 1000 :=
      fun r hr => hpre r (List.mem_cons_of_mem p hr)
    have hihres := ih p.elapsed hpp.2 hps
    simp only [List.cons_append, corrLoop]
    rw [if_pos h0, hf]
    simp only [hp, List.append_eq, List.cons_append] at hihres ⊢
    rw [hihres]
    simp [List.replicate_succ]

/-- Witness for C4: two rounds of unrelated steps against a 70 s
deadline; the correlator returns the fall-through with the `time` output
set. -/
theorem correlator_no_match_returns_undefined_witness :
    getWorkflowRunId tMark cfg70 [roundB1, roundB2] 0 =
      some ⟨.ok none, none, true,
        List.replicate 2 (workflowFetchTimeout 70000)⟩ :=
  correlator_no_match_returns_undefined tMark cfg70 [roundB1] roundB2 [] 0
    (by decide) (by decide) (by decide) (by decide)

/-- C6 counterexample: with a 70 s overall timeout, the second
correlation round starts with 50 s already elapsed, so the claimed bound
min(60 s, remaining budget) would be 20 s, yet the round's run-list
fetch is bounded by 60 s — the bound the code passes ignores the elapsed
time. -/
theorem correlator_fetch_bound_counterexample :
    getWorkflowRunId tMark cfg70 [roundB1, roundB2] 0 =
      some ⟨.ok none, none, true, [60000, 60000]⟩ ∧
    claimedFetchBound 70000 50000 = 20000 ∧
    (60000 : Nat) ≠ 20000 := by
  refine ⟨rfl, by decide, by decide⟩

/-- C6 (amended): the timeout passed to the non-empty-retry primitive for
the run-list fetch is min(60 s, configured overall timeout), computed
from the full configured timeout alone — it is the same in every round
and is not reduced by the time already elapsed in the outer loop. -/
theorem correlator_fetch_bound_full_timeout (test : String → Bool)
    (config : ActionConfig) (rounds : List CorrRound) (e0 : Nat)
    (res : CorrResult)
    (h : getWorkflowRunId test config rounds e0 = some res) :
    (∀ t ∈ res.fetchTimeouts,
      t = workflowFetchTimeout (config.workflowTimeoutSeconds * 1000)) ∧
    workflowFetchTimeout (config.workflowTimeoutSeconds * 1000) =
      min WORKFLOW_FETCH_TIMEOUT_MS (config.workflowTimeoutSeconds * 1000) := by
  constructor
  · exact corrLoop_fetchTimeouts_const test
      (config.workflowTimeoutSeconds * 1000) rounds e0 res h
  · unfold workflowFetchTimeout
    split <;> omega

/-- Witness for C6 (amended) on the concrete two-round 70 s execution. -/
theorem correlator_fetch_bound_full_timeout_witness :
    (∀ t ∈ [60000, 60000],
      t = workflowFetchTimeout (cfg70.workflowTimeoutSeconds * 1000)) ∧
    workflowFetchTimeout (cfg70.workflowTimeoutSeconds * 1000) =
      min WORKFLOW_FETCH_TIMEOUT_MS (cfg70.workflowTimeoutSeconds * 1000) :=
  correlator_fetch_bound_full_timeout tMark cfg70 [roundB1, roundB2] 0
    ⟨.ok none, none, true, [60000, 60000]⟩ rfl

/-- C7 counterexample: an error raised by the underlying gateway call
while pre-fetching the active-job URL propagates out of
`waitWorkflowRunFinish` — the waiter never enters its polling loop (the
trace contains a successful completion poll it never consumes), so this
failure mode is fatal to the invocation. -/
theorem waiter_url_prefetch_error_fatal :
    waitWorkflowRunFinish cfg300 42 [urlRoundErr] 0 [pollSuccess] 0
      (.ok ()) = some ⟨.error ("boom"), none, false⟩ := rfl

/-- C7 (amended): the pre-polling active-job URL fetch is best-effort
only in its no-URL case: whenever the bounded retry returns a URL string
— in particular the sentinel `Unable to fetch URL` once its 1 s deadline
has passed — the waiter continues into its polling loop normally; but an
error raised by the underlying gateway call propagates out of
`waitWorkflowRunFinish` and is fatal to the invocation. -/
theorem waiter_url_prefetch_best_effort (config : ActionConfig)
    (runId : Nat) (urlRounds : List UrlRound) (u0 : Nat)
    (pollRounds : List WaitRound) (e0 : Nat)
    (fj : Except String Unit) :
    (∀ u, getWorkflowRunActiveJobUrlRetry 1000 urlRounds u0 =
        some (.ok u) →
      waitWorkflowRunFinish config runId urlRounds u0 pollRounds e0 fj =
        waitLoop (config.workflowTimeoutSeconds * 1000) runId fj
          pollRounds e0) ∧
    (1000 ≤ u0 →
      getWorkflowRunActiveJobUrlRetry 1000 urlRounds u0 =
        some (.ok ("Unable to fetch URL"))) ∧
    (∀ e, getWorkflowRunActiveJobUrlRetry 1000 urlRounds u0 =
        some (.error e) →
      waitWorkflowRunFinish config runId urlRounds u0 pollRounds e0 fj =
        some ⟨.error e, none, false⟩) := by
  refine ⟨fun u h => ?_, fun h => ?_, fun e h => ?_⟩
  · unfold waitWorkflowRunFinish
    rw [h]
  · cases urlRounds <;>
      simp [getWorkflowRunActiveJobUrlRetry, Nat.not_lt.mpr h]
  · unfold waitWorkflowRunFinish
    rw [h]

/-- Witness for C7 (amended): with the retry deadline already elapsed
the sentinel URL is returned and the waiter proceeds into polling. -/
theorem waiter_url_prefetch_best_effort_witness :
    getWorkflowRunActiveJobUrlRetry 1000 [] 1000 =
      some (.ok ("Unable to fetch URL")) ∧
    waitWorkflowRunFinish cfg300 42 [] 1000 [pollSuccess] 0 (.ok ()) =
      waitLoop (cfg300.workflowTimeoutSeconds * 1000) 42 (.ok ())
        [pollSuccess] 0 := by
  have h := waiter_url_prefetch_best_effort cfg300 42 [] 1000 [pollSuccess]
    0 (.ok ())
  have hs := h.2.1 (by decide)
  exact ⟨hs, h.1 ("Unable to fetch URL") hs⟩

/-- C2: when a poll observes status `completed` with conclusion
`failure` (earlier polls pending, all before the deadline), the waiter
fetches the run's failed jobs and marks the invocation failed with the
message exactly `failure`, returning `false`. -/
theorem waiter_failure_conclusion (config : ActionConfig) (runId : Nat)
    (urlRounds : List UrlRound) (u0 : Nat) (v : String)
    (pre : List WaitRound) (rt : WaitRound) (tail : List WaitRound)
    (e0 : Nat)
    (hurl : getWorkflowRunActiveJobUrlRetry 1000 urlRounds u0 =
      some (.ok v))
    (h0 : e0 < config.workflowTimeoutSeconds * 1000)
    (hpre : ∀ r ∈ pre, pollsNotCompleted r = true ∧
      r.elapsed < config.workflowTimeoutSeconds * 1000)
    (hterm : rt.state = .ok ⟨some ("completed"), some ("failure")⟩) :
    waitWorkflowRunFinish config runId urlRounds u0 (pre ++ rt :: tail)
      e0 (.ok ()) = some ⟨.ok false, some ("failure"), true⟩ := by
  unfold waitWorkflowRunFinish
  rw [hurl]
  rw [waitLoop_skips_pending (config.workflowTimeoutSeconds * 1000) runId
    (.ok ()) pre (rt :: tail) e0 h0 hpre]
  have hlt : lastElapsed e0 pre < config.workflowTimeoutSeconds * 1000 :=
    lastElapsed_lt (config.workflowTimeoutSeconds * 1000) pre e0 h0
      (fun r hr => (hpre r hr).2)
  unfold waitLoop
  rw [if_pos hlt, hterm]
  simp [failureConclusions]

/-- Witness for C2: an in-progress poll followed by a
`completed`/`failure` poll against a 300 s deadline. -/
theorem waiter_failure_conclusion_witness :
    waitWorkflowRunFinish cfg300 77 [urlRoundOk] 0
      [pollInProgress, pollFailed] 0 (.ok ()) =
      some ⟨.ok false, some ("failure"), true⟩ :=
  waiter_failure_conclusion cfg300 77 [urlRoundOk] 0
    ("https://host/jobs/1") [pollInProgress] pollFailed [] 0 rfl
    (by decide) (by decide) rfl

/-- C3: when no poll observes status `completed` and the overall
deadline (the configured timeout in milliseconds) elapses, the waiter
throws a Timeout error whose message names the run ID, rather than
returning a terminal classification. -/
theorem waiter_timeout_raises (config : ActionConfig) (runId : Nat)
    (urlRounds : List UrlRound) (u0 : Nat) (v : String)
    (pre : List WaitRound) (rl : WaitRound) (tail : List WaitRound)
    (e0 : Nat) (fj : Except String Unit)
    (hurl : getWorkflowRunActiveJobUrlRetry 1000 urlRounds u0 =
      some (.ok v))
    (h0 : e0 < config.workflowTimeoutSeconds * 1000)
    (hpre : ∀ r ∈ pre, pollsNotCompleted r = true ∧
      r.elapsed < config.workflowTimeoutSeconds * 1000)
    (hrl : pollsNotCompleted rl = true)
    (hlast : config.workflowTimeoutSeconds * 1000 ≤ rl.elapsed) :
    waitWorkflowRunFinish config runId urlRounds u0 (pre ++ rl :: tail)
      e0 fj =
      some ⟨.error ("Timeout exceeded while awaiting completion of Run " ++
        toString runId), none, false⟩ := by
  unfold waitWorkflowRunFinish
  rw [hurl]
  rw [waitLoop_skips_pending (config.workflowTimeoutSeconds * 1000) runId
    fj pre (rl :: tail) e0 h0 hpre]
  have hlt : lastElapsed e0 pre < config.workflowTimeoutSeconds * 1000 :=
    lastElapsed_lt (config.workflowTimeoutSeconds * 1000) pre e0 h0
      (fun r hr => (hpre r hr).2)
  obtain ⟨st, hst, hne⟩ := pollsNotCompleted_elim rl hrl
  unfold waitLoop
  rw [if_pos hlt, hst]
  simp only [hne, if_neg hne]
  exact waitLoop_deadline (config.workflowTimeoutSeconds * 1000) runId fj
    tail rl.elapsed (Nat.not_lt.mpr hlast)

/-- Witness for C3: an in-progress poll followed by an in-progress poll
read past the 300 s deadline; the waiter throws the timeout error naming
run 42. -/
theorem waiter_timeout_raises_witness :
    waitWorkflowRunFinish cfg300 42 [urlRoundOk] 0
      [pollInProgress, pollLate] 0 (.ok ()) =
      some ⟨.error ("Timeout exceeded while awaiting completion of Run " ++
        toString 42), none, false⟩ :=
  waiter_timeout_raises cfg300 42 [urlRoundOk] 0 ("https://host/jobs/1")
    [pollInProgress] pollLate [] 0 (.ok ()) rfl (by decide) (by decide)
    (by decide) (by decide)

end DispatchSync
